import Mathlib

/-!
Shallow embedding of the Cargo build-settings core of the `sublime-rust`
package (files `rust/cargo_settings.py`, `rust/cargo_config.py`,
`cargo_build.py`), together with proofs checking the natural-language
specification against it.

Conventions of the embedding:
* Python/JSON setting values are modelled by `Value` (null / bool / string);
  Python truthiness is `Value.truthy`.
* Python dictionaries holding settings are association lists
  (`List (String × _)`) preserving insertion order, with `dictGet` matching
  `dict.get` and `dictSet` matching `d[k] = v`.
* External collaborators (Sublime's variable expansion, `shlex.split`, the
  target detector, the active view) are parameters collected in `Ctx`.
-/

/-- JSON-ish setting value as stored in the sublime-project data. -/
inductive Value where
  | null
  | bool (b : Bool)
  | str (s : String)
deriving DecidableEq

/-- Python truthiness of a setting value: `None` and `False` and `''` are
falsy, everything else here is truthy. -/
def Value.truthy : Value → Bool
  | .null => false
  | .bool b => b
  | .str s => !(s = "")

/-- The string carried by a value.  The source only ever reaches the places
where this is used with string values (a non-string there would raise a
`TypeError` in Python); the claims below always supply strings. -/
def Value.asStr : Value → String
  | .str s => s
  | _ => ""

/-- `d.get(k)` on a Python dict, as an association-list lookup. -/
def dictGet (m : List (String × α)) (k : String) : Option α :=
  match m with
  | [] => none
  | (k', v) :: rest => if k' = k then some v else dictGet rest k

/-- `d.get(k, default)`. -/
def dictGetD (m : List (String × α)) (k : String) (dflt : α) : α :=
  (dictGet m k).getD dflt

/-- `d[k] = v`: replace the binding of `k` if present, else append it
(Python dicts keep insertion order). -/
def dictSet (m : List (String × α)) (k : String) (v : α) : List (String × α) :=
  match m with
  | [] => [(k, v)]
  | (k', v') :: rest =>
    if k' = k then (k, v) :: rest else (k', v') :: dictSet rest k v

/-- `d.setdefault(k, []).append(x)`: push `x` onto the list bound to `k`,
creating the binding at the end if absent. -/
def dictPush (m : List (String × List α)) (k : String) (x : α) :
    List (String × List α) :=
  match m with
  | [] => [(k, [x])]
  | (k', xs) :: rest =>
    if k' = k then (k', xs ++ [x]) :: rest else (k', xs) :: dictPush rest k x

/-- `sep.join(parts)` (Python `str.join`). -/
def pyJoin (sep : String) : List String → String
  | [] => ""
  | [x] => x
  | x :: xs => x ++ sep ++ pyJoin sep xs

/-- ASCII whitespace, the characters relevant to `str.split()` here (the
argument strings manipulated by the plugin are space separated). -/
def isWs (c : Char) : Bool :=
  c = ' ' || c = '\t' || c = '\n' || c = '\r'

/-- Helper for `wsSplit`: `acc` is the current token, reversed. -/
def wsSplitAux : List Char → List Char → List (List Char)
  | [], acc => if acc = [] then [] else [acc.reverse]
  | c :: cs, acc =>
    if isWs c then
      if acc = [] then wsSplitAux cs []
      else acc.reverse :: wsSplitAux cs []
    else wsSplitAux cs (c :: acc)

/-- Character-list core of Python `str.split()` with no argument: split on
runs of whitespace, discarding empty pieces. -/
def wsSplit (l : List Char) : List (List Char) :=
  wsSplitAux l []

/-- Python `s.split()`. -/
def pySplit (s : String) : List String :=
  (wsSplit s.toList).map (fun cs => String.mk cs)

/-- Python `s.capitalize()` (first character upper-cased, the rest
lower-cased). -/
def pyCapitalize (s : String) : String :=
  match s.toList with
  | [] => ""
  | c :: cs => String.mk (c.toUpper :: cs.map Char.toLower)

/-- Per-package subtree of the project settings
(`settings.cargo_build.paths.<path>` in the sublime-project data):
a `defaults` map, a `targets` map keyed by target selector, and a
`variants` map keyed by command name. -/
structure PathData where
  defaults : List (String × Value)
  targets : List (String × List (String × Value))
  variants : List (String × List (String × Value))
deriving DecidableEq

def emptyPathData : PathData := PathData.mk [] [] []

/-- `allows_target` in a command description: either a boolean or a
collection of target-kind tags (cargo_settings.py lines 16-19). -/
inductive AllowsTarget where
  | flag (b : Bool)
  | kinds (ks : List String)
deriving DecidableEq

/-- Python truthiness of the `allows_target` entry (a non-empty tuple/list
is truthy). -/
def AllowsTarget.truthy : AllowsTarget → Bool
  | .flag b => b
  | .kinds ks => !(ks = [])

/-- One entry of `CARGO_COMMANDS` (cargo_settings.py lines 43-112); an
absent key in the Python dict is the corresponding falsy default. -/
structure CmdInfo where
  command : String
  allows_target : AllowsTarget
  allows_target_triple : Bool
  allows_release : Bool
  allows_features : Bool
  allows_json : Bool
  wants_view_path : Bool
  wants_run_args : Bool
deriving DecidableEq

-- The fields are: command, allows_target, allows_target_triple,
-- allows_release, allows_features, allows_json, wants_view_path,
-- wants_run_args.
def buildSpec : CmdInfo :=
  CmdInfo.mk "build" (.flag true) true true true true false false
def runSpec : CmdInfo :=
  CmdInfo.mk "run" (.kinds ["bin", "example"]) true true true true false false
def testSpec : CmdInfo :=
  CmdInfo.mk "test" (.flag true) true true true true false false
def benchSpec : CmdInfo :=
  CmdInfo.mk "bench" (.flag true) true false true true false false
def cleanSpec : CmdInfo :=
  CmdInfo.mk "clean" (.flag false) false false false false false false
def docSpec : CmdInfo :=
  CmdInfo.mk "doc" (.kinds ["lib", "bin"]) true true true false false false
def clippySpec : CmdInfo :=
  CmdInfo.mk "clippy" (.flag false) true true true true false false
def scriptSpec : CmdInfo :=
  CmdInfo.mk "script" (.flag false) false false false false true false

/-- `CARGO_COMMANDS` (cargo_settings.py lines 43-112). -/
def CARGO_COMMANDS : List (String × CmdInfo) :=
  [("build", buildSpec), ("run", runSpec), ("test", testSpec),
   ("bench", benchSpec), ("clean", cleanSpec), ("doc", docSpec),
   ("clippy", clippySpec), ("script", scriptSpec)]

/-- `CargoSettings.get_with_target` (cargo_settings.py lines 157-166),
over the `paths` map of the project data.  A falsy selector reads the
`defaults` map, a truthy one the selector's entry of `targets`. -/
def get_with_target (paths : List (String × PathData)) (path : String)
    (target : Value) (key : String) (dflt : Value) : Value :=
  let pdata := dictGetD paths path emptyPathData
  let d := if target.truthy then dictGetD pdata.targets target.asStr []
           else pdata.defaults
  dictGetD d key dflt

/-- `CargoSettings.set_with_target` (cargo_settings.py lines 177-187).
Auto-vivifies the nested maps; returns the updated `paths` map (the
write-through to the window's project data is the return value here). -/
def set_with_target (paths : List (String × PathData)) (path : String)
    (target : Value) (key : String) (v : Value) : List (String × PathData) :=
  let pdata := dictGetD paths path emptyPathData
  let pdata' :=
    if target.truthy then
      let t := dictGetD pdata.targets target.asStr []
      PathData.mk pdata.defaults
        (dictSet pdata.targets target.asStr (dictSet t key v)) pdata.variants
    else
      PathData.mk (dictSet pdata.defaults key v) pdata.targets pdata.variants
  dictSet paths path pdata'

/-- `CargoSettings.get_with_variant` (cargo_settings.py lines 168-175). -/
def get_with_variant (paths : List (String × PathData)) (path : String)
    (variant : String) (key : String) (dflt : Value) : Value :=
  let pdata := dictGetD paths path emptyPathData
  dictGetD (dictGetD pdata.variants variant []) key dflt

/-- `CargoSettings.set_with_variant` (cargo_settings.py lines 189-197). -/
def set_with_variant (paths : List (String × PathData)) (path : String)
    (variant : String) (key : String) (v : Value) : List (String × PathData) :=
  let pdata := dictGetD paths path emptyPathData
  let vmap := dictGetD pdata.variants variant []
  dictSet paths path
    (PathData.mk pdata.defaults pdata.targets
      (dictSet pdata.variants variant (dictSet vmap key v)))

/-- External collaborators and editor state consulted by
`CargoSettings.get_command`. -/
structure Ctx where
  /-- `self._active_view_is_rust()` (cargo_settings.py lines 225-229). -/
  active_view_is_rust : Bool
  /-- `self.window.active_view().file_name()`. -/
  view_file_name : String
  /-- Result of `TargetDetector.determine_targets` for the active file:
  zero or more `(src_path, cmd_line)` candidates (external collaborator,
  cargo_settings.py lines 277-279). -/
  detected : List (String × List String)
  /-- `sublime.expand_variables` over the window's variables (external). -/
  expand : String → String
  /-- Python `shlex.split` (external library function). -/
  shlexSplit : String → List String

/-- `vdata` captured by `get_command` (cargo_settings.py lines 263-264):
the variant map of the command. -/
def variantData (pdata : PathData) (command : String) :
    List (String × Value) :=
  dictGetD pdata.variants command []

/-- `vdata_get` (cargo_settings.py lines 266-267):
`initial_settings.get(key, vdata.get(key, None))`, with Python `None`
(absent or bound) collapsed to `none`/`Value.null` by the caller. -/
def vdataGet (pdata : PathData) (command : String)
    (initial : List (String × Value)) (key : String) : Option Value :=
  match dictGet initial key with
  | some v => some v
  | none => dictGet (variantData pdata command) key

/-- The `target` local of `get_command` after the target-resolution block
(cargo_settings.py lines 269-284): `Value.null` plays the role of Python's
`None`.  With the `auto` sentinel and a Rust active view, a single
detected candidate is joined into a selector string; otherwise the target
stays unset. -/
def resolvedTarget (ctx : Ctx) (ci : CmdInfo) (pdata : PathData)
    (initial : List (String × Value)) : Value :=
  if ci.allows_target.truthy then
    let tcfg := (vdataGet pdata ci.command initial "target").getD Value.null
    if tcfg = Value.str "auto" then
      if ctx.active_view_is_rust then
        match ctx.detected with
        | [(_, cmd_line)] => Value.str (pyJoin " " cmd_line)
        | _ => Value.null
      else Value.null
    else tcfg
  else Value.null

/-- `pdata.get('targets', {}).get(target, {})` as used by the `get`
closure (cargo_settings.py line 289); only a string target can match the
string-keyed `targets` map. -/
def targetData (pdata : PathData) (target : Value) :
    List (String × Value) :=
  match target with
  | Value.str s => dictGetD pdata.targets s []
  | _ => []

/-- The `get` closure of `get_command` (cargo_settings.py lines 286-290):
defaults, then `variants[command]`, then `targets[target]`, then the
one-shot `initial_settings`, each later layer overriding the former. -/
def resolveKey (pdata : PathData) (command : String) (target : Value)
    (initial : List (String × Value)) (key : String) (dflt : Value) : Value :=
  let d := dictGetD pdata.defaults key dflt
  let v := dictGetD (variantData pdata command) key d
  let t := dictGetD (targetData pdata target) key v
  dictGetD initial key t

/-- Spec-side restatement of the four-layer precedence, written as the
spec words it: take the highest layer that binds the key, falling through
layer by layer down to the caller-supplied default. -/
def layered (initial tmap vmap dmap : List (String × Value))
    (key : String) (dflt : Value) : Value :=
  match dictGet initial key with
  | some v => v
  | none =>
    match dictGet tmap key with
    | some v => v
    | none =>
      match dictGet vmap key with
      | some v => v
      | none =>
        match dictGet dmap key with
        | some v => v
        | none => dflt

/-- Toolchain prefix tokens (cargo_settings.py lines 292-294). -/
def toolchainTokens (tc : Value) : List String :=
  if tc.truthy then ["+" ++ tc.asStr] else []

/-- Target selector tokens (cargo_settings.py lines 300-301):
`result.extend(target.split())`. -/
def targetTokens (target : Value) : List String :=
  if target.truthy then pySplit target.asStr else []

/-- `--target <triple>` tokens (cargo_settings.py lines 304-307). -/
def tripleTokens (ci : CmdInfo) (v : Value) : List String :=
  if ci.allows_target_triple && v.truthy then ["--target", v.asStr] else []

/-- `--release` token (cargo_settings.py lines 310-313). -/
def releaseTokens (ci : CmdInfo) (v : Value) : List String :=
  if ci.allows_release && v.truthy then ["--release"] else []

/-- `--message-format=json` token (cargo_settings.py lines 315-316): the
source appends it whenever the command allows it, without consulting any
resolved setting. -/
def jsonTokens (ci : CmdInfo) : List String :=
  if ci.allows_json then ["--message-format=json"] else []

/-- `extra_cargo_args` tokens (cargo_settings.py lines 331-335). -/
def extraCargoTokens (ctx : Ctx) (v : Value) : List String :=
  if v.truthy then ctx.shlexSplit (ctx.expand v.asStr) else []

/-- `extra_run_args` tokens with their leading `--` separator
(cargo_settings.py lines 337-341). -/
def extraRunTokens (ctx : Ctx) (v : Value) : List String :=
  if v.truthy then "--" :: ctx.shlexSplit (ctx.expand v.asStr) else []

/-- Everything `get_command` has appended before the `extra_run_args`
block (cargo_settings.py lines 255-335), in source order. -/
def preRunVector (ctx : Ctx) (ci : CmdInfo) (pdata : PathData)
    (initial : List (String × Value)) : List String :=
  let target := resolvedTarget ctx ci pdata initial
  ["cargo"]
    ++ toolchainTokens (resolveKey pdata ci.command target initial
        "toolchain" Value.null)
    ++ [ci.command]
    ++ targetTokens target
    ++ tripleTokens ci (resolveKey pdata ci.command target initial
        "target_triple" Value.null)
    ++ releaseTokens ci (resolveKey pdata ci.command target initial
        "release" (Value.bool false))
    ++ jsonTokens ci
    ++ (if ci.wants_view_path then [ctx.view_file_name] else [])
    ++ extraCargoTokens ctx (resolveKey pdata ci.command target initial
        "extra_cargo_args" Value.null)

/-- `CargoSettings.get_command` (cargo_settings.py lines 255-343).
`none` is the `return None` taken when a `wants_view_path` command runs
without a Rust view (lines 319-323); the error dialog shown there is an
external side effect.  The failure test is hoisted before the vector is
assembled, which is equivalent because the partial vector is discarded. -/
def get_command (ctx : Ctx) (ci : CmdInfo) (pdata : PathData)
    (initial : List (String × Value)) : Option (List String) :=
  if ci.wants_view_path && !ctx.active_view_is_rust then none
  else
    some (preRunVector ctx ci pdata initial
      ++ extraRunTokens ctx (resolveKey pdata ci.command
          (resolvedTarget ctx ci pdata initial) initial
          "extra_run_args" Value.null))

/-- The caller's decision in `CargoExecThread.run` (cargo_build.py lines
70-73): `if not cmd: return` — a process is spawned only for a truthy
(non-`None`, non-empty) command vector. -/
def execSpawns (cmd : Option (List String)) : Bool :=
  match cmd with
  | none => false
  | some c => !(c = [])

/-!
## The question-sequence engine (`cargo_config.py`, `CargoConfigBase`)

`show_next_question` (lines 75-135) drives a list of question names.  Each
question's item source is one of the `items_<q>` methods; a choice feeds
`make_choice` (lines 89-95) which records it, lets the optional
`selected_<q>` hook extend the remaining sequence, and recurses; an
exhausted sequence calls `done()` once and stops (lines 79-81).  The
interactive prompts (`show_quick_panel` / `show_input_panel`) are external
collaborators modelled by `Prompts`; a cancelled quick panel invokes the
`wrapper` callback with index `-1`, which does nothing (lines 101-105),
modelled by the prompt returning `none`.

`RECENT_CHOICES` only changes which row is pre-selected in the UI and is
not modelled; it never affects which value a finished run produces.
-/

/-- What an `items_<q>` method returns: either a choice list (a dict with
`items`, optional `default`, optional `skip_if_one`) or a free-text prompt
(a dict with `caption` and a default text). -/
inductive ItemSource where
  | choiceList (items : List (String × Value)) (dflt : Option Value)
      (skip_if_one : Bool)
  | caption (text : String) (dflt : String)

/-- A concrete configuration flow: the pre-supplied `input` map, the
`items_<q>` methods, and the `selected_<q>` hooks (`fun _ _ _ => []` where
the hook is absent or returns `None`; Python only extends the sequence for
a truthy, i.e. non-empty, result). -/
structure QFlow where
  input : List (String × Value)
  items : String → List (String × Value) → ItemSource
  selected : String → List (String × Value) → Value → List String

/-- The interactive prompt collaborators.  `pick` returns the index chosen
in the quick panel, or `none` when the user dismisses it (Sublime's `-1`);
`text` returns the entered text, or `none` when the input panel is
dismissed (its `on_cancel` is `None`, so nothing happens). -/
structure Prompts where
  pick : (q : String) → (items : List (String × Value)) →
    Option (Fin items.length)
  text : String → String → Option String

/-- Result of driving a question sequence. -/
inductive Outcome where
  | finished (choices : List (String × Value))
  | cancelled
  | stuck
deriving DecidableEq

/-- Default-injection (cargo_config.py lines 111-120): if the item source
supplies a `default` value that matches no listed value, append an extra
`(default, default)` entry so the default is selectable. -/
def addDefaultEntry (items : List (String × Value)) (dflt : Option Value) :
    List (String × Value) :=
  match dflt with
  | none => items
  | some d =>
    if items.any (fun x => x.2 = d) then items else items ++ [(d.asStr, d)]

/-- `show_next_question` (cargo_config.py lines 75-135) as a fuelled
interpreter.  Returns the outcome together with the list of question names
that were reached (asked or auto-answered), in order.  `Outcome.stuck`
only arises when the fuel runs out, which a run of the source never does
unless the `selected_` hooks extend the sequence forever. -/
def runFrom (flow : QFlow) (pr : Prompts) :
    Nat → List String → Nat → List (String × Value) →
    Outcome × List String
  | 0, _, _, _ => (Outcome.stuck, [])
  | Nat.succ fuel, seq, idx, choices =>
    if h : idx < seq.length then
      let q := seq.get ⟨idx, h⟩
      -- `make_choice` (lines 89-95): record the choice, let the
      -- `selected_` hook extend the end of the sequence, continue.
      let step := fun (v : Value) =>
        let choices' := dictSet choices q v
        let nx := flow.selected q choices' v
        let r := runFrom flow pr fuel (seq ++ nx) (idx + 1) choices'
        (r.1, q :: r.2)
      match dictGet flow.input q with
      | some v => step v
      | none =>
        match flow.items q choices with
        | ItemSource.choiceList items dflt skip1 =>
          match skip1, items with
          | true, [x] => step x.2          -- `skip_if_one` (lines 108-109)
          | _, _ =>
            let items' := addDefaultEntry items dflt
            match pr.pick q items' with
            | none => (Outcome.cancelled, [q])   -- cancelled quick panel
            | some i => step (items'.get i).2
        | ItemSource.caption cap dtxt =>
          match pr.text cap dtxt with
          | none => (Outcome.cancelled, [q])     -- dismissed input panel
          | some s => step (Value.str s)
    else
      (Outcome.finished choices, [])             -- `done()` (lines 79-81)

/-- Effect of a run on the persisted store: the `done` action (which is
what calls the `set_with_*` setters, e.g. `CargoSetProfile.done`) runs
only when the sequence finished; a cancelled or stuck run writes
nothing. -/
def applyOutcome (o : Outcome)
    (doneAct : List (String × Value) → List (String × PathData) →
      List (String × PathData))
    (st : List (String × PathData)) : List (String × PathData) :=
  match o with
  | Outcome.finished ch => doneAct ch st
  | _ => st

/-!
## The target question (`CargoConfigBase.items_target`, lines 168-198)
-/

/-- One target from `cargo metadata` (see `get_cargo_metadata`,
cargo_settings.py lines 231-253): a name and a non-empty list of kind
tags. -/
structure Target where
  name : String
  kind : List String
deriving DecidableEq

/-- A package: name and targets (the fields of the metadata used here). -/
structure Package where
  name : String
  targets : List Target
deriving DecidableEq

def libKinds : List String :=
  ["lib", "rlib", "dylib", "staticlib", "proc-macro"]

def exeKinds : List String := ["bin", "test", "example", "bench"]

/-- The `kinds` grouping loop of `items_target` (lines 170-186): for each
target, look only at its first kind tag; library-like kinds push a
`('Lib', '--lib')` entry under the `'lib'` group, executable-like kinds
push a `('Kind: name', '--kind name')` entry under their own group, and
`custom-build` (and unknown kinds) contribute nothing.  `target['kind'][0]`
would raise on an empty kind list; metadata always provides at least one
tag, and `""` here stands for that unreachable case. -/
def collectStep (m : List (String × List (String × Value)))
    (t : Target) : List (String × List (String × Value)) :=
  let kind := t.kind.headD ""
  if kind ∈ libKinds then
    dictPush m "lib" ("Lib", Value.str "--lib")
  else if kind ∈ exeKinds then
    dictPush m kind
      (pyCapitalize kind ++ ": " ++ t.name,
       Value.str ("--" ++ kind ++ " " ++ t.name))
  else m

def collectKinds (ts : List Target) :
    List (String × List (String × Value)) :=
  ts.foldl collectStep []

/-- The per-group `allowed` filter of `items_target` (lines 189-196):
with a truthy earlier `variant` choice, a non-boolean `allows_target`
restricts the admitted kind groups.  (`allowed = kind in target_types`
with `target_types` a literal `False`, and `CARGO_COMMANDS[variant]` for
an unknown variant, both raise in Python; they are unreachable because the
variant question only offers target-allowing catalog commands.  They are
modelled as `false` and `true` respectively.) -/
def kindAllowed (choices : List (String × Value)) (kind : String) : Bool :=
  match dictGet choices "variant" with
  | none => true
  | some v =>
    if v.truthy then
      match dictGet CARGO_COMMANDS v.asStr with
      | some cmd =>
        match cmd.allows_target with
        | AllowsTarget.flag b => b
        | AllowsTarget.kinds ks => kind ∈ ks
      | none => true
    else true

/-- `CargoConfigBase.items_target` (cargo_config.py lines 168-198): the
two synthetic entries, then the grouped entries of every admitted kind
group, in grouping order. -/
def items_target (pkg : Package) (choices : List (String × Value)) :
    List (String × Value) :=
  (collectKinds pkg.targets).foldl
    (fun acc kv => if kindAllowed choices kv.1 then acc ++ kv.2 else acc)
    [("All Targets", Value.null), ("Automatic Detection", Value.str "auto")]

/-!
## Association-list lemmas
-/

theorem dictGet_dictSet_self (m : List (String × α)) (k : String) (v : α) :
    dictGet (dictSet m k v) k = some v := by
  induction m with
  | nil => simp [dictGet, dictSet]
  | cons p rest ih =>
    obtain ⟨k', v'⟩ := p
    by_cases h : k' = k
    · subst h
      simp [dictGet, dictSet]
    · simp [dictGet, dictSet, h, ih]

theorem dictGet_dictSet_ne (m : List (String × α)) (k k' : String) (v : α)
    (h : k' ≠ k) : dictGet (dictSet m k v) k' = dictGet m k' := by
  induction m with
  | nil => simp [dictGet, dictSet, Ne.symm h]
  | cons p rest ih =>
    obtain ⟨k₀, v₀⟩ := p
    by_cases h₀ : k₀ = k
    · subst h₀
      simp [dictGet, dictSet, Ne.symm h]
    · by_cases h₁ : k₀ = k'
      · subst h₁
        simp [dictGet, dictSet, h₀]
      · simp [dictGet, dictSet, h₀, h₁, ih]

/-- C2: the `get` closure of `get_command` implements exactly the
four-layer precedence, lowest to highest `defaults` →
`variants[command]` → `targets[selector]` → one-shot overrides: the
highest layer binding the key wins and an unbound layer falls through
(`layered` is that precedence written the way the spec words it). -/
theorem resolveKey_eq_layered (pdata : PathData) (command : String)
    (target : Value) (initial : List (String × Value)) (key : String)
    (dflt : Value) :
    resolveKey pdata command target initial key dflt =
      layered initial (targetData pdata target) (variantData pdata command)
        pdata.defaults key dflt := by
  unfold resolveKey layered dictGetD
  cases dictGet initial key <;>
    cases dictGet (targetData pdata target) key <;>
      cases dictGet (variantData pdata command) key <;>
        cases dictGet pdata.defaults key <;> rfl

/-- C10: writing through `set_with_target` with a falsy (null/empty)
selector stores the key in the path's `defaults` map, leaves the
`targets` map unchanged, and a subsequent `get_with_target` with a falsy
selector reads the written value back. -/
theorem set_get_with_target_defaults (paths : List (String × PathData))
    (path : String) (sel : Value) (key : String) (v dflt : Value)
    (h : sel.truthy = false) :
    get_with_target (set_with_target paths path sel key v) path sel key dflt
      = v ∧
    (dictGetD (set_with_target paths path sel key v) path
        emptyPathData).targets
      = (dictGetD paths path emptyPathData).targets ∧
    (dictGetD (set_with_target paths path sel key v) path
        emptyPathData).defaults
      = dictSet (dictGetD paths path emptyPathData).defaults key v := by
  unfold get_with_target set_with_target
  rw [h]
  simp [dictGetD, dictGet_dictSet_self]

/-- Witness for C10 at a concrete store: a null-selector write of
`release` is read back and the `targets` map is untouched. -/
theorem set_get_with_target_defaults_witness :
    get_with_target (set_with_target [] "/p" Value.null "release"
        (Value.bool true)) "/p" Value.null "release" Value.null
      = Value.bool true ∧
    (dictGetD (set_with_target [] "/p" Value.null "release"
        (Value.bool true)) "/p" emptyPathData).targets
      = (dictGetD ([] : List (String × PathData)) "/p" emptyPathData).targets ∧
    (dictGetD (set_with_target [] "/p" Value.null "release"
        (Value.bool true)) "/p" emptyPathData).defaults
      = dictSet (dictGetD ([] : List (String × PathData)) "/p"
          emptyPathData).defaults "release" (Value.bool true) :=
  set_get_with_target_defaults [] "/p" Value.null "release"
    (Value.bool true) Value.null (by decide)

/-!
## Split/join round trip

`get_command` joins the single detected candidate's tokens with spaces
(line 282) and later re-splits the selector string (line 301); for
whitespace-free, non-empty tokens the two cancel.
-/

theorem strToList_append (a b : String) :
    (a ++ b).toList = a.toList ++ b.toList := by
  cases a
  cases b
  rfl

theorem strMk_toList (s : String) : String.mk s.toList = s := by
  cases s
  rfl

theorem strMk_data (s : String) : String.mk s.data = s := by
  cases s
  rfl

theorem strData_ne_nil (s : String) (h : s ≠ "") : s.data ≠ [] := by
  intro hl
  apply h
  cases s
  simp at hl
  simp [hl]

theorem wsSplitAux_nonws (w : List Char) (hw : ∀ c ∈ w, isWs c = false) :
    ∀ rest acc, wsSplitAux (w ++ rest) acc =
      wsSplitAux rest (w.reverse ++ acc) := by
  induction w with
  | nil => intro rest acc; simp
  | cons c w ih =>
    intro rest acc
    have hc : isWs c = false := hw c (by simp)
    simp only [List.cons_append, wsSplitAux, hc, Bool.false_eq_true,
      if_false]
    show wsSplitAux (w ++ rest) (c :: acc) = _
    rw [ih (fun d hd => hw d (by simp [hd])) rest (c :: acc)]
    simp

theorem wsSplitAux_space (rest : List Char) (acc : List Char)
    (h : acc ≠ []) :
    wsSplitAux (' ' :: rest) acc = acc.reverse :: wsSplitAux rest [] := by
  simp [wsSplitAux, isWs, h]

theorem pySplit_pyJoin (l : List String)
    (hl : ∀ t ∈ l, t ≠ "" ∧ ∀ c ∈ t.toList, isWs c = false) :
    pySplit (pyJoin " " l) = l := by
  induction l with
  | nil => rfl
  | cons x xs ih =>
    obtain ⟨hx, hxc⟩ := hl x (by simp)
    cases xs with
    | nil =>
      show pySplit x = [x]
      unfold pySplit wsSplit
      have h₁ := wsSplitAux_nonws x.toList hxc [] []
      simp only [List.append_nil] at h₁
      have hne : x.data ≠ [] := strData_ne_nil x hx
      rw [h₁]
      simp [wsSplitAux, String.toList, hne, strMk_data]
    | cons y r =>
      have hj : (pyJoin " " (x :: y :: r)).toList =
          x.toList ++ ' ' :: (pyJoin " " (y :: r)).toList := by
        show (x ++ " " ++ pyJoin " " (y :: r)).toList = _
        rw [strToList_append, strToList_append]
        simp
      unfold pySplit wsSplit
      rw [hj, wsSplitAux_nonws x.toList hxc _ [], List.append_nil,
        wsSplitAux_space _ _
          (by simp [String.toList, strData_ne_nil x hx])]
      simp only [List.reverse_reverse, List.map_cons, strMk_toList]
      have h₂ := ih (fun t ht => hl t (by simp [ht]))
      unfold pySplit wsSplit at h₂
      rw [h₂]

theorem targetTokens_pyJoin (l : List String)
    (hl : ∀ t ∈ l, t ≠ "" ∧ ∀ c ∈ t.toList, isWs c = false) :
    targetTokens (Value.str (pyJoin " " l)) = l := by
  by_cases hj : pyJoin " " l = ""
  · have h0 : pySplit (pyJoin " " l) = l := pySplit_pyJoin l hl
    rw [hj] at h0
    have hempty : pySplit "" = [] := rfl
    rw [hempty] at h0
    simp [targetTokens, Value.truthy, hj, h0]
  · simp only [targetTokens, Value.truthy, Value.asStr, hj]
    simp only [Bool.not_false, if_true, decide_False]
    exact pySplit_pyJoin l hl

/-!
## Claim theorems about `get_command`
-/

/-- A window state with no Rust view and no detected candidates; identity
variable expansion and whitespace tokenization stand in for the external
collaborators. -/
def ctx0 : Ctx := Ctx.mk false "" [] (fun s => s) (fun s => pySplit s)

/-- A window state whose active view is a Rust file. -/
def ctxR : Ctx :=
  Ctx.mk true "/p/src/main.rs" [] (fun s => s) (fun s => pySplit s)

/-- C1 counterexample: `build` has `allows_json` set, the store and the
one-shot overrides are completely empty — so no json/message-format key
resolves truthy in any layer — yet the produced vector does contain
`--message-format=json`: lines 315-316 of cargo_settings.py append the
flag without consulting any resolved setting. -/
theorem get_command_json_unconditional_cex :
    buildSpec.allows_json = true ∧
    get_command ctx0 buildSpec emptyPathData [] =
      some ["cargo", "build", "--message-format=json"] ∧
    "--message-format=json" ∈ ["cargo", "build", "--message-format=json"] := by
  decide

/-- C1 (amended): whenever `get_command` produces a vector and the target
selector, toolchain, view path and extra arguments contribute no tokens,
the vector is exactly `cargo`, the subcommand, then `--target <triple>`
iff the spec allows a triple and the resolved `target_triple` is truthy,
`--release` iff the spec allows release and the resolved `release` is
truthy, and `--message-format=json` iff the spec's `allows_json` is set —
the json flag alone is not gated on any resolved configuration value. -/
theorem get_command_flag_gating (ctx : Ctx) (ci : CmdInfo)
    (pdata : PathData) (initial : List (String × Value)) (res : List String)
    (hres : get_command ctx ci pdata initial = some res)
    (hwvp : ci.wants_view_path = false)
    (htc : (resolveKey pdata ci.command (resolvedTarget ctx ci pdata initial)
        initial "toolchain" Value.null).truthy = false)
    (htg : (resolvedTarget ctx ci pdata initial).truthy = false)
    (heca : (resolveKey pdata ci.command (resolvedTarget ctx ci pdata initial)
        initial "extra_cargo_args" Value.null).truthy = false)
    (hera : (resolveKey pdata ci.command (resolvedTarget ctx ci pdata initial)
        initial "extra_run_args" Value.null).truthy = false) :
    res = ["cargo", ci.command]
      ++ (if ci.allows_target_triple &&
            (resolveKey pdata ci.command (resolvedTarget ctx ci pdata initial)
              initial "target_triple" Value.null).truthy then
          ["--target", (resolveKey pdata ci.command
            (resolvedTarget ctx ci pdata initial) initial "target_triple"
            Value.null).asStr] else [])
      ++ (if ci.allows_release &&
            (resolveKey pdata ci.command (resolvedTarget ctx ci pdata initial)
              initial "release" (Value.bool false)).truthy then
          ["--release"] else [])
      ++ (if ci.allows_json then ["--message-format=json"] else []) := by
  unfold get_command at hres
  rw [hwvp] at hres
  simp only [Bool.false_and, Bool.false_eq_true, if_false,
    Option.some.injEq] at hres
  subst hres
  unfold preRunVector
  simp [toolchainTokens, targetTokens, tripleTokens, releaseTokens,
    jsonTokens, extraCargoTokens, extraRunTokens, htc, htg, heca, hera,
    hwvp]

/-- Witness for C1 (amended) at the concrete empty store. -/
theorem get_command_flag_gating_witness :
    ["cargo", "build", "--message-format=json"] = ["cargo", "build"]
      ++ (if buildSpec.allows_target_triple &&
            (resolveKey emptyPathData buildSpec.command
              (resolvedTarget ctx0 buildSpec emptyPathData [])
              [] "target_triple" Value.null).truthy then
          ["--target", (resolveKey emptyPathData buildSpec.command
            (resolvedTarget ctx0 buildSpec emptyPathData []) []
            "target_triple" Value.null).asStr] else [])
      ++ (if buildSpec.allows_release &&
            (resolveKey emptyPathData buildSpec.command
              (resolvedTarget ctx0 buildSpec emptyPathData [])
              [] "release" (Value.bool false)).truthy then
          ["--release"] else [])
      ++ (if buildSpec.allows_json then ["--message-format=json"] else []) :=
  get_command_flag_gating ctx0 buildSpec emptyPathData []
    ["cargo", "build", "--message-format=json"] (by decide) (by decide)
    (by decide) (by decide) (by decide) (by decide)

/-- Decomposition of a produced command vector into the part before the
`extra_run_args` block and that block. -/
theorem get_command_eq_some (ctx : Ctx) (ci : CmdInfo) (pdata : PathData)
    (initial : List (String × Value)) (res : List String)
    (hres : get_command ctx ci pdata initial = some res) :
    res = preRunVector ctx ci pdata initial
      ++ extraRunTokens ctx (resolveKey pdata ci.command
          (resolvedTarget ctx ci pdata initial) initial "extra_run_args"
          Value.null) := by
  unfold get_command at hres
  split at hres
  · exact absurd hres (by simp)
  · simp only [Option.some.injEq] at hres
    exact hres.symm

/-- The store of the C3 counterexample: a `toolchain` default bound to
the empty string — a non-null value that Python treats as falsy. -/
def pdataEmptyTc : PathData :=
  PathData.mk [("toolchain", Value.str "")] [] []

/-- C3 counterexample: the toolchain resolved through the precedence
chain is non-null (the empty string), yet the vector has no `+<toolchain>`
prefix — the token after `cargo` is the subcommand.  Line 293 of
cargo_settings.py tests Python truthiness, not non-nullness. -/
theorem get_command_toolchain_nonnull_cex :
    resolveKey pdataEmptyTc "build"
        (resolvedTarget ctx0 buildSpec pdataEmptyTc []) [] "toolchain"
        Value.null ≠ Value.null ∧
    get_command ctx0 buildSpec pdataEmptyTc [] =
      some ["cargo", "build", "--message-format=json"] ∧
    ["cargo", "build", "--message-format=json"].get? 1 = some "build" := by
  decide

/-- C3 (amended): if the resolved toolchain is a truthy string (non-null
and non-empty), the two tokens after `cargo` are exactly `+<toolchain>`
and the subcommand; if the resolved toolchain is falsy (null, false or
the empty string), the first token after `cargo` is the subcommand. -/
theorem get_command_toolchain_gate (ctx : Ctx) (ci : CmdInfo)
    (pdata : PathData) (initial : List (String × Value)) (res : List String)
    (hres : get_command ctx ci pdata initial = some res) :
    (∀ s, resolveKey pdata ci.command (resolvedTarget ctx ci pdata initial)
        initial "toolchain" Value.null = Value.str s → s ≠ "" →
      ∃ rest, res = "cargo" :: ("+" ++ s) :: ci.command :: rest)
    ∧ ((resolveKey pdata ci.command (resolvedTarget ctx ci pdata initial)
        initial "toolchain" Value.null).truthy = false →
      ∃ rest, res = "cargo" :: ci.command :: rest) := by
  have hd := get_command_eq_some ctx ci pdata initial res hres
  constructor
  · intro s hs hne
    refine ⟨targetTokens (resolvedTarget ctx ci pdata initial)
      ++ tripleTokens ci (resolveKey pdata ci.command
          (resolvedTarget ctx ci pdata initial) initial "target_triple"
          Value.null)
      ++ releaseTokens ci (resolveKey pdata ci.command
          (resolvedTarget ctx ci pdata initial) initial "release"
          (Value.bool false))
      ++ jsonTokens ci
      ++ (if ci.wants_view_path then [ctx.view_file_name] else [])
      ++ extraCargoTokens ctx (resolveKey pdata ci.command
          (resolvedTarget ctx ci pdata initial) initial "extra_cargo_args"
          Value.null)
      ++ extraRunTokens ctx (resolveKey pdata ci.command
          (resolvedTarget ctx ci pdata initial) initial "extra_run_args"
          Value.null), ?_⟩
    rw [hd]
    simp only [preRunVector]
    rw [hs]
    have ht : (Value.str s).truthy = true := by simp [Value.truthy, hne]
    simp [toolchainTokens, ht, Value.asStr]
  · intro htc
    refine ⟨targetTokens (resolvedTarget ctx ci pdata initial)
      ++ tripleTokens ci (resolveKey pdata ci.command
          (resolvedTarget ctx ci pdata initial) initial "target_triple"
          Value.null)
      ++ releaseTokens ci (resolveKey pdata ci.command
          (resolvedTarget ctx ci pdata initial) initial "release"
          (Value.bool false))
      ++ jsonTokens ci
      ++ (if ci.wants_view_path then [ctx.view_file_name] else [])
      ++ extraCargoTokens ctx (resolveKey pdata ci.command
          (resolvedTarget ctx ci pdata initial) initial "extra_cargo_args"
          Value.null)
      ++ extraRunTokens ctx (resolveKey pdata ci.command
          (resolvedTarget ctx ci pdata initial) initial "extra_run_args"
          Value.null), ?_⟩
    rw [hd]
    simp only [preRunVector]
    simp [toolchainTokens, htc]

/-- The store of the toolchain example: a variant-scoped `nightly`
toolchain for `build`. -/
def pdataNightly : PathData :=
  PathData.mk [] [] [("build", [("toolchain", Value.str "nightly")])]

/-- Witness for C3 (amended): the spec's own example (variant toolchain
`nightly` for `build`) and the empty store. -/
theorem get_command_toolchain_gate_witness :
    (∃ rest, ["cargo", "+nightly", "build", "--message-format=json"] =
      "cargo" :: ("+" ++ "nightly") :: "build" :: rest) ∧
    (∃ rest, ["cargo", "build", "--message-format=json"] =
      "cargo" :: "build" :: rest) :=
  ⟨(get_command_toolchain_gate ctx0 buildSpec pdataNightly []
      ["cargo", "+nightly", "build", "--message-format=json"]
      (by decide)).1 "nightly" (by decide) (by decide),
   (get_command_toolchain_gate ctx0 buildSpec emptyPathData []
      ["cargo", "build", "--message-format=json"] (by decide)).2
      (by decide)⟩

/-- C5: a `wants_view_path` command (e.g. `script`) with a non-Rust
active view produces no vector at all (`None`), and the caller's
`if not cmd` test then spawns nothing — it never sees an empty or partial
command; with a Rust active view the active file's path is appended to
the vector (right before the extra-args blocks). -/
theorem get_command_wants_view_path (ctx : Ctx) (ci : CmdInfo)
    (pdata : PathData) (initial : List (String × Value))
    (hw : ci.wants_view_path = true) :
    (ctx.active_view_is_rust = false →
      get_command ctx ci pdata initial = none ∧
      execSpawns (get_command ctx ci pdata initial) = false)
    ∧ (ctx.active_view_is_rust = true →
      ∃ pre, get_command ctx ci pdata initial =
        some (pre ++ ctx.view_file_name ::
          (extraCargoTokens ctx (resolveKey pdata ci.command
              (resolvedTarget ctx ci pdata initial) initial
              "extra_cargo_args" Value.null)
            ++ extraRunTokens ctx (resolveKey pdata ci.command
              (resolvedTarget ctx ci pdata initial) initial
              "extra_run_args" Value.null)))) := by
  constructor
  · intro hv
    have hnone : get_command ctx ci pdata initial = none := by
      unfold get_command
      rw [hw, hv]
      simp
    exact ⟨hnone, by rw [hnone]; rfl⟩
  · intro hv
    refine ⟨["cargo"]
      ++ toolchainTokens (resolveKey pdata ci.command
          (resolvedTarget ctx ci pdata initial) initial "toolchain"
          Value.null)
      ++ [ci.command]
      ++ targetTokens (resolvedTarget ctx ci pdata initial)
      ++ tripleTokens ci (resolveKey pdata ci.command
          (resolvedTarget ctx ci pdata initial) initial "target_triple"
          Value.null)
      ++ releaseTokens ci (resolveKey pdata ci.command
          (resolvedTarget ctx ci pdata initial) initial "release"
          (Value.bool false))
      ++ jsonTokens ci, ?_⟩
    unfold get_command
    rw [hw, hv]
    simp only [preRunVector, Bool.not_true, Bool.and_false,
      Bool.false_eq_true, if_false, hw, if_true]
    simp

/-- Witness for C5 with the `script` command: a non-Rust view yields no
command, a Rust view appends the active file's path. -/
theorem get_command_wants_view_path_witness :
    (get_command ctx0 scriptSpec emptyPathData [] = none ∧
      execSpawns (get_command ctx0 scriptSpec emptyPathData []) = false)
    ∧ (∃ pre, get_command ctxR scriptSpec emptyPathData [] =
        some (pre ++ ctxR.view_file_name ::
          (extraCargoTokens ctxR (resolveKey emptyPathData
              scriptSpec.command
              (resolvedTarget ctxR scriptSpec emptyPathData [])
              [] "extra_cargo_args" Value.null)
            ++ extraRunTokens ctxR (resolveKey emptyPathData
              scriptSpec.command
              (resolvedTarget ctxR scriptSpec emptyPathData [])
              [] "extra_run_args" Value.null)))) :=
  ⟨(get_command_wants_view_path ctx0 scriptSpec emptyPathData []
      (by decide)).1 (by decide),
   (get_command_wants_view_path ctxR scriptSpec emptyPathData []
      (by decide)).2 (by decide)⟩

/-- C6: whenever `get_command` produces a vector and `extra_run_args`
resolves to a truthy string, the vector is everything assembled so far
followed by a literal `--` separator immediately before the tokenized
run arguments (no assumption is made about `extra_cargo_args`, which may
well have resolved empty); when `extra_run_args` resolves falsy (absent,
null or empty), nothing at all is appended after the
`extra_cargo_args` block. -/
theorem get_command_run_args_separator (ctx : Ctx) (ci : CmdInfo)
    (pdata : PathData) (initial : List (String × Value)) (res : List String)
    (hres : get_command ctx ci pdata initial = some res) :
    (∀ s, resolveKey pdata ci.command (resolvedTarget ctx ci pdata initial)
        initial "extra_run_args" Value.null = Value.str s → s ≠ "" →
      res = preRunVector ctx ci pdata initial
        ++ "--" :: ctx.shlexSplit (ctx.expand s))
    ∧ ((resolveKey pdata ci.command (resolvedTarget ctx ci pdata initial)
        initial "extra_run_args" Value.null).truthy = false →
      res = preRunVector ctx ci pdata initial) := by
  have hd := get_command_eq_some ctx ci pdata initial res hres
  constructor
  · intro s hs hne
    rw [hd, hs]
    simp [extraRunTokens, Value.truthy, Value.asStr, hne]
  · intro hera
    rw [hd]
    simp [extraRunTokens, hera]

/-- The store of the C6 witness: `extra_run_args` bound in `defaults`. -/
def pdataRunArgs : PathData :=
  PathData.mk [("extra_run_args", Value.str "a b")] [] []

/-- Witness for C6: with `extra_run_args` set to `"a b"` and nothing
else configured, the vector ends `-- a b`; with the empty store it is
exactly the pre-run vector. -/
theorem get_command_run_args_separator_witness :
    ["cargo", "build", "--message-format=json", "--", "a", "b"] =
      preRunVector ctx0 buildSpec pdataRunArgs []
        ++ "--" :: ctx0.shlexSplit (ctx0.expand "a b") ∧
    ["cargo", "build", "--message-format=json"] =
      preRunVector ctx0 buildSpec emptyPathData [] :=
  ⟨(get_command_run_args_separator ctx0 buildSpec pdataRunArgs []
      ["cargo", "build", "--message-format=json", "--", "a", "b"]
      (by decide)).1 "a b" (by decide) (by decide),
   (get_command_run_args_separator ctx0 buildSpec emptyPathData []
      ["cargo", "build", "--message-format=json"] (by decide)).2
      (by decide)⟩

/-- Under the auto sentinel with a Rust view, the resolved target is
determined by the detection result alone. -/
theorem resolvedTarget_auto (ctx : Ctx) (ci : CmdInfo) (pdata : PathData)
    (initial : List (String × Value))
    (hat : ci.allows_target.truthy = true)
    (hauto : (vdataGet pdata ci.command initial "target").getD Value.null
      = Value.str "auto")
    (hrust : ctx.active_view_is_rust = true) :
    resolvedTarget ctx ci pdata initial =
      match ctx.detected with
      | [(_, cmd_line)] => Value.str (pyJoin " " cmd_line)
      | _ => Value.null := by
  simp [resolvedTarget, hat, hauto, hrust]

/-- C4: with the per-command `target` configuration equal to the `auto`
sentinel and a Rust active view, a single detected candidate's tokens
become exactly the target tokens appended right after the subcommand
(for whitespace-free non-empty tokens the join/split pair cancels);
zero candidates or more than one leave the target unset and no target
tokens are appended — the vector goes straight from the subcommand to
the capability flags. -/
theorem get_command_auto_target (ctx : Ctx) (ci : CmdInfo)
    (pdata : PathData) (initial : List (String × Value)) (res : List String)
    (hres : get_command ctx ci pdata initial = some res)
    (hat : ci.allows_target.truthy = true)
    (hauto : (vdataGet pdata ci.command initial "target").getD Value.null
      = Value.str "auto")
    (hrust : ctx.active_view_is_rust = true) :
    (∀ src cmdline, ctx.detected = [(src, cmdline)] →
      (∀ t ∈ cmdline, t ≠ "" ∧ ∀ c ∈ t.toList, isWs c = false) →
      resolvedTarget ctx ci pdata initial = Value.str (pyJoin " " cmdline) ∧
      ∃ rest, res = ["cargo"]
        ++ toolchainTokens (resolveKey pdata ci.command
            (Value.str (pyJoin " " cmdline)) initial "toolchain" Value.null)
        ++ ci.command :: (cmdline ++ rest))
    ∧ ((ctx.detected = [] ∨ 2 ≤ ctx.detected.length) →
      resolvedTarget ctx ci pdata initial = Value.null ∧
      targetTokens (resolvedTarget ctx ci pdata initial) = [] ∧
      ∃ rest, res = ["cargo"]
        ++ toolchainTokens (resolveKey pdata ci.command Value.null initial
            "toolchain" Value.null)
        ++ ci.command :: rest) := by
  have hd := get_command_eq_some ctx ci pdata initial res hres
  constructor
  · intro src cmdline hdet hhyg
    have htv : resolvedTarget ctx ci pdata initial =
        Value.str (pyJoin " " cmdline) := by
      rw [resolvedTarget_auto ctx ci pdata initial hat hauto hrust, hdet]
    refine ⟨htv, tripleTokens ci (resolveKey pdata ci.command
        (Value.str (pyJoin " " cmdline)) initial "target_triple" Value.null)
      ++ releaseTokens ci (resolveKey pdata ci.command
          (Value.str (pyJoin " " cmdline)) initial "release"
          (Value.bool false))
      ++ jsonTokens ci
      ++ (if ci.wants_view_path then [ctx.view_file_name] else [])
      ++ extraCargoTokens ctx (resolveKey pdata ci.command
          (Value.str (pyJoin " " cmdline)) initial "extra_cargo_args"
          Value.null)
      ++ extraRunTokens ctx (resolveKey pdata ci.command
          (Value.str (pyJoin " " cmdline)) initial "extra_run_args"
          Value.null), ?_⟩
    rw [hd]
    simp only [preRunVector]
    rw [htv, targetTokens_pyJoin cmdline hhyg]
    simp
  · intro hdet01
    have htv : resolvedTarget ctx ci pdata initial = Value.null := by
      rw [resolvedTarget_auto ctx ci pdata initial hat hauto hrust]
      rcases hdet01 with h | h
      · rw [h]
      · cases hdc : ctx.detected with
        | nil => rfl
        | cons a t =>
          cases t with
          | nil =>
            rw [hdc] at h
            simp at h
          | cons b r => rfl
    refine ⟨htv, by rw [htv]; rfl, tripleTokens ci (resolveKey pdata
        ci.command Value.null initial "target_triple" Value.null)
      ++ releaseTokens ci (resolveKey pdata ci.command Value.null initial
          "release" (Value.bool false))
      ++ jsonTokens ci
      ++ (if ci.wants_view_path then [ctx.view_file_name] else [])
      ++ extraCargoTokens ctx (resolveKey pdata ci.command Value.null
          initial "extra_cargo_args" Value.null)
      ++ extraRunTokens ctx (resolveKey pdata ci.command Value.null
          initial "extra_run_args" Value.null), ?_⟩
    rw [hd]
    simp only [preRunVector]
    rw [htv]
    simp [targetTokens, Value.truthy]

/-- A window whose detector finds exactly one candidate for the active
file. -/
def ctxDet1 : Ctx :=
  Ctx.mk true "/p/src/bin/bin1.rs"
    [("/p/src/bin/bin1.rs", ["--bin", "bin1"])]
    (fun s => s) (fun s => pySplit s)

/-- A window whose detector finds two candidates. -/
def ctxDet2 : Ctx :=
  Ctx.mk true "/p/src/main.rs"
    [("/p/src/bin/bin1.rs", ["--bin", "bin1"]),
     ("/p/src/bin/bin2.rs", ["--bin", "bin2"])]
    (fun s => s) (fun s => pySplit s)

/-- Witness for C4: one candidate yields its tokens after the
subcommand, two candidates yield no target tokens. -/
theorem get_command_auto_target_witness :
    (resolvedTarget ctxDet1 buildSpec emptyPathData
        [("target", Value.str "auto")]
      = Value.str (pyJoin " " ["--bin", "bin1"]) ∧
      ∃ rest, ["cargo", "build", "--bin", "bin1", "--message-format=json"]
        = ["cargo"]
          ++ toolchainTokens (resolveKey emptyPathData buildSpec.command
              (Value.str (pyJoin " " ["--bin", "bin1"]))
              [("target", Value.str "auto")] "toolchain" Value.null)
          ++ "build" :: (["--bin", "bin1"] ++ rest))
    ∧ (resolvedTarget ctxDet2 buildSpec emptyPathData
        [("target", Value.str "auto")] = Value.null ∧
      targetTokens (resolvedTarget ctxDet2 buildSpec emptyPathData
        [("target", Value.str "auto")]) = [] ∧
      ∃ rest, ["cargo", "build", "--message-format=json"] = ["cargo"]
        ++ toolchainTokens (resolveKey emptyPathData buildSpec.command
            Value.null [("target", Value.str "auto")] "toolchain"
            Value.null)
        ++ "build" :: rest) :=
  ⟨(get_command_auto_target ctxDet1 buildSpec emptyPathData
      [("target", Value.str "auto")]
      ["cargo", "build", "--bin", "bin1", "--message-format=json"]
      (by decide) (by decide) (by decide) (by decide)).1
      "/p/src/bin/bin1.rs" ["--bin", "bin1"] (by decide) (by decide),
   (get_command_auto_target ctxDet2 buildSpec emptyPathData
      [("target", Value.str "auto")]
      ["cargo", "build", "--message-format=json"]
      (by decide) (by decide) (by decide) (by decide)).2
      (Or.inr (by decide))⟩

/-!
## Claim theorems about the question engine
-/

/-- C7: dismissing a prompt (quick panel returning `-1`, modelled as
`none`, or a dismissed input panel) aborts the whole remaining sequence:
the run ends at that question (the reached-question log is just `[q]`),
the outcome is `cancelled` — so `done()` is never invoked — and the
persisted store is untouched, since the `done` action is the only thing
that writes and `applyOutcome` leaves the store unchanged for a
cancelled outcome. -/
theorem runFrom_cancel_aborts (flow : QFlow) (pr : Prompts) (fuel : Nat)
    (seq : List String) (idx : Nat) (choices : List (String × Value))
    (h : idx < seq.length)
    (hin : dictGet flow.input (seq.get ⟨idx, h⟩) = none) :
    (∀ items dflt skip1,
      flow.items (seq.get ⟨idx, h⟩) choices =
        ItemSource.choiceList items dflt skip1 →
      (skip1 = false ∨ items.length ≠ 1) →
      pr.pick (seq.get ⟨idx, h⟩) (addDefaultEntry items dflt) = none →
      runFrom flow pr (fuel + 1) seq idx choices =
        (Outcome.cancelled, [seq.get ⟨idx, h⟩]) ∧
      ∀ doneAct st,
        applyOutcome (runFrom flow pr (fuel + 1) seq idx choices).1
          doneAct st = st)
    ∧ (∀ cap dtxt,
      flow.items (seq.get ⟨idx, h⟩) choices = ItemSource.caption cap dtxt →
      pr.text cap dtxt = none →
      runFrom flow pr (fuel + 1) seq idx choices =
        (Outcome.cancelled, [seq.get ⟨idx, h⟩]) ∧
      ∀ doneAct st,
        applyOutcome (runFrom flow pr (fuel + 1) seq idx choices).1
          doneAct st = st) := by
  constructor
  · intro items dflt skip1 hitems hns hpick
    simp only [List.get_eq_getElem] at hpick
    have key : runFrom flow pr (fuel + 1) seq idx choices =
        (Outcome.cancelled, [seq.get ⟨idx, h⟩]) := by
      simp only [runFrom]
      rw [dif_pos h]
      simp only [hin, hitems]
      rcases hns with hns | hns
      · subst hns
        cases items <;> simp [hpick]
      · cases items with
        | nil => simp [hpick]
        | cons x t =>
          cases t with
          | nil =>
            cases skip1 with
            | false => simp [hpick]
            | true => exact absurd rfl hns
          | cons y r => cases skip1 <;> simp [hpick]
    refine ⟨key, ?_⟩
    intro doneAct st
    rw [key]
    rfl
  · intro cap dtxt hitems htext
    have key : runFrom flow pr (fuel + 1) seq idx choices =
        (Outcome.cancelled, [seq.get ⟨idx, h⟩]) := by
      simp only [runFrom]
      rw [dif_pos h]
      simp only [hin, hitems]
      simp [htext]
    refine ⟨key, ?_⟩
    intro doneAct st
    rw [key]
    rfl

/-- A flow whose questions offer two choices and never extend the
sequence. -/
def flowChoice : QFlow :=
  QFlow.mk []
    (fun _ _ => ItemSource.choiceList
      [("A", Value.str "a"), ("B", Value.str "b")] none false)
    (fun _ _ _ => [])

/-- A flow whose questions are free-text prompts. -/
def flowText : QFlow :=
  QFlow.mk [] (fun _ _ => ItemSource.caption "Args:" "")
    (fun _ _ _ => [])

/-- Prompts that are always dismissed. -/
def prCancel : Prompts := Prompts.mk (fun _ _ => none) (fun _ _ => none)

/-- Witness for C7: a cancelled quick panel and a cancelled input panel
both abort a two-question sequence at the first question; a `done`
action writing to the store is never applied. -/
theorem runFrom_cancel_aborts_witness :
    (runFrom flowChoice prCancel 5 ["q1", "q2"] 0 [] =
        (Outcome.cancelled, ["q1"]) ∧
      applyOutcome (runFrom flowChoice prCancel 5 ["q1", "q2"] 0 []).1
        (fun _ st => set_with_target st "/p" Value.null "k"
          (Value.str "x")) [] = []) ∧
    (runFrom flowText prCancel 5 ["q1", "q2"] 0 [] =
        (Outcome.cancelled, ["q1"]) ∧
      applyOutcome (runFrom flowText prCancel 5 ["q1", "q2"] 0 []).1
        (fun _ st => set_with_target st "/p" Value.null "k"
          (Value.str "x")) [] = []) :=
  ⟨⟨((runFrom_cancel_aborts flowChoice prCancel 4 ["q1", "q2"] 0 []
        (by decide) rfl).1
        [("A", Value.str "a"), ("B", Value.str "b")] none false rfl
        (Or.inl rfl) rfl).1,
    ((runFrom_cancel_aborts flowChoice prCancel 4 ["q1", "q2"] 0 []
        (by decide) rfl).1
        [("A", Value.str "a"), ("B", Value.str "b")] none false rfl
        (Or.inl rfl) rfl).2 _ []⟩,
   ⟨((runFrom_cancel_aborts flowText prCancel 4 ["q1", "q2"] 0 []
        (by decide) rfl).2 "Args:" "" rfl rfl).1,
    ((runFrom_cancel_aborts flowText prCancel 4 ["q1", "q2"] 0 []
        (by decide) rfl).2 "Args:" "" rfl rfl).2 _ []⟩⟩

/-- C9: `make_choice` records the answer, and the names returned by the
`selected_` hook are appended to the *end* of the remaining sequence,
so they are asked (in their order) only after every currently remaining
question; an exhausted sequence invokes `done()` with the accumulated
choices — exactly once, since the run returns right after
(`Outcome.finished` carries the single `done` invocation's argument). -/
theorem runFrom_splice_and_done :
    (∀ (flow : QFlow) (pr : Prompts) (fuel : Nat) (seq : List String)
        (idx : Nat) (choices : List (String × Value))
        (h : idx < seq.length) (v : Value),
      dictGet flow.input (seq.get ⟨idx, h⟩) = some v →
      runFrom flow pr (fuel + 1) seq idx choices =
        ((runFrom flow pr fuel
            (seq ++ flow.selected (seq.get ⟨idx, h⟩)
              (dictSet choices (seq.get ⟨idx, h⟩) v) v)
            (idx + 1) (dictSet choices (seq.get ⟨idx, h⟩) v)).1,
          seq.get ⟨idx, h⟩ ::
            (runFrom flow pr fuel
              (seq ++ flow.selected (seq.get ⟨idx, h⟩)
                (dictSet choices (seq.get ⟨idx, h⟩) v) v)
              (idx + 1) (dictSet choices (seq.get ⟨idx, h⟩) v)).2))
    ∧ (∀ (flow : QFlow) (pr : Prompts) (fuel : Nat) (seq : List String)
        (idx : Nat) (choices : List (String × Value)),
      seq.length ≤ idx →
      runFrom flow pr (fuel + 1) seq idx choices =
        (Outcome.finished choices, [])) := by
  constructor
  · intro flow pr fuel seq idx choices h v hin
    simp only [runFrom]
    rw [dif_pos h]
    simp only [hin]
  · intro flow pr fuel seq idx choices h
    simp only [runFrom]
    rw [dif_neg (Nat.not_lt.mpr h)]

/-- A flow answering `which` from pre-supplied input, whose hook splices
a follow-on sub-sequence, mirroring `CargoSetToolchain`. -/
def flowSplice : QFlow :=
  QFlow.mk [("which", Value.str "variant")]
    (fun _ _ => ItemSource.choiceList [("A", Value.str "a")] none true)
    (fun q _ v =>
      if q = "which" then
        if v = Value.str "variant" then ["package", "variant", "toolchain"]
        else ["package", "target", "toolchain"]
      else [])

/-- Witness for C9: the spliced names land after the current sequence,
and an exhausted sequence finishes with the accumulated choices. -/
theorem runFrom_splice_and_done_witness :
    runFrom flowSplice prCancel 4 ["which"] 0 [] =
      ((runFrom flowSplice prCancel 3
          (["which"] ++ flowSplice.selected "which"
            (dictSet [] "which" (Value.str "variant"))
            (Value.str "variant"))
          1 (dictSet [] "which" (Value.str "variant"))).1,
        "which" ::
          (runFrom flowSplice prCancel 3
            (["which"] ++ flowSplice.selected "which"
              (dictSet [] "which" (Value.str "variant"))
              (Value.str "variant"))
            1 (dictSet [] "which" (Value.str "variant"))).2) ∧
    runFrom flowSplice prCancel 7 ["which"] 1
        [("which", Value.str "variant")] =
      (Outcome.finished [("which", Value.str "variant")], []) :=
  ⟨runFrom_splice_and_done.1 flowSplice prCancel 3 ["which"] 0 []
      (by decide) (Value.str "variant") rfl,
   runFrom_splice_and_done.2 flowSplice prCancel 6 ["which"] 1
      [("which", Value.str "variant")] (by decide)⟩

/-!
## Claim theorems about `items_target`
-/

/-- All entries held in the kind groups, in group order. -/
def allItems (m : List (String × List (String × Value))) :
    List (String × Value) :=
  (m.map Prod.snd).flatten

/-- Whether a target's first kind tag is library-like. -/
def isLibTarget (t : Target) : Bool :=
  t.kind.headD "" ∈ libKinds

theorem count_singleton_ite (x e : String × Value) :
    List.count x [e] = if e = x then 1 else 0 := by
  by_cases hex : e = x
  · subst hex
    simp
  · simp [List.count_cons, hex]

theorem count_allItems_dictPush (m : List (String × List (String × Value)))
    (k : String) (e x : String × Value) :
    List.count x (allItems (dictPush m k e)) =
      List.count x (allItems m) + (if e = x then 1 else 0) := by
  induction m with
  | nil => simp [allItems, dictPush, count_singleton_ite]
  | cons p rest ih =>
    obtain ⟨k', xs⟩ := p
    by_cases h : k' = k
    · subst h
      have hp : dictPush ((k', xs) :: rest) k' e =
          (k', xs ++ [e]) :: rest := by
        simp [dictPush]
      rw [hp]
      simp only [allItems, List.map_cons, List.flatten_cons,
        List.count_append, count_singleton_ite]
      omega
    · have hp : dictPush ((k', xs) :: rest) k e =
          (k', xs) :: dictPush rest k e := by
        simp [dictPush, h]
      rw [hp]
      simp only [allItems, List.map_cons, List.flatten_cons,
        List.count_append] at ih ⊢
      omega

theorem mem_allItems_dictPush_self
    (m : List (String × List (String × Value))) (k : String)
    (e : String × Value) : e ∈ allItems (dictPush m k e) := by
  induction m with
  | nil => simp [allItems, dictPush]
  | cons p rest ih =>
    obtain ⟨k', xs⟩ := p
    by_cases h : k' = k
    · subst h
      have hp : dictPush ((k', xs) :: rest) k' e =
          (k', xs ++ [e]) :: rest := by
        simp [dictPush]
      rw [hp]
      simp [allItems]
    · have hp : dictPush ((k', xs) :: rest) k e =
          (k', xs) :: dictPush rest k e := by
        simp [dictPush, h]
      rw [hp]
      simp only [allItems, List.map_cons, List.flatten_cons,
        List.mem_append] at ih ⊢
      exact Or.inr ih

theorem mem_allItems_dictPush_of_mem
    (m : List (String × List (String × Value))) (k : String)
    (e y : String × Value) (hy : y ∈ allItems m) :
    y ∈ allItems (dictPush m k e) := by
  induction m with
  | nil => simp [allItems] at hy
  | cons p rest ih =>
    obtain ⟨k', xs⟩ := p
    by_cases h : k' = k
    · subst h
      have hp : dictPush ((k', xs) :: rest) k' e =
          (k', xs ++ [e]) :: rest := by
        simp [dictPush]
      rw [hp]
      simp only [allItems, List.map_cons, List.flatten_cons,
        List.mem_append] at hy ⊢
      rcases hy with hy | hy
      · exact Or.inl (by simp [hy])
      · exact Or.inr hy
    · have hp : dictPush ((k', xs) :: rest) k e =
          (k', xs) :: dictPush rest k e := by
        simp [dictPush, h]
      rw [hp]
      simp only [allItems, List.map_cons, List.flatten_cons,
        List.mem_append] at hy ⊢
      rcases hy with hy | hy
      · exact Or.inl hy
      · exact Or.inr (ih hy)

/-- Every executable-kind entry differs from the `Lib` entry (its
selector string is strictly longer than `--lib`). -/
theorem exeEntry_ne_lib (k n : String) (hk : k ∈ exeKinds) :
    (pyCapitalize k ++ ": " ++ n,
      Value.str ("--" ++ k ++ " " ++ n)) ≠ ("Lib", Value.str "--lib") := by
  intro heq
  have h2 : "--" ++ k ++ " " ++ n = "--lib" := by
    have := congrArg Prod.snd heq
    simpa using this
  have hlen := congrArg String.length h2
  rw [String.length_append, String.length_append,
    String.length_append] at hlen
  simp only [exeKinds, List.mem_cons, List.not_mem_nil, or_false] at hk
  rcases hk with rfl | rfl | rfl | rfl <;>
    simp only [show "--".length = 2 from rfl, show " ".length = 1 from rfl,
      show "--lib".length = 5 from rfl, show "bin".length = 3 from rfl,
      show "test".length = 4 from rfl, show "example".length = 7 from rfl,
      show "bench".length = 5 from rfl] at hlen <;> omega

theorem exe_not_lib (k : String) (h : k ∈ exeKinds) : k ∉ libKinds := by
  simp only [exeKinds, List.mem_cons, List.not_mem_nil, or_false] at h
  rcases h with rfl | rfl | rfl | rfl <;> decide

theorem count_lib_foldl (ts : List Target) :
    ∀ m, List.count ("Lib", Value.str "--lib")
        (allItems (ts.foldl collectStep m)) =
      List.count ("Lib", Value.str "--lib") (allItems m) +
        List.countP (fun t => isLibTarget t) ts := by
  induction ts with
  | nil => intro m; simp
  | cons t ts ih =>
    intro m
    rw [List.foldl_cons, ih, List.countP_cons]
    have hstep : List.count ("Lib", Value.str "--lib")
        (allItems (collectStep m t)) =
        List.count ("Lib", Value.str "--lib") (allItems m) +
          (if isLibTarget t then 1 else 0) := by
      simp only [collectStep]
      by_cases hlib : t.kind.headD "" ∈ libKinds
      · have hl : isLibTarget t = true := by
          unfold isLibTarget
          exact decide_eq_true hlib
        rw [if_pos hlib, count_allItems_dictPush, hl]
        simp
      · have hl : isLibTarget t = false := by
          unfold isLibTarget
          exact decide_eq_false hlib
        rw [if_neg hlib]
        by_cases hexe : t.kind.headD "" ∈ exeKinds
        · rw [if_pos hexe, count_allItems_dictPush,
            if_neg (exeEntry_ne_lib _ _ hexe), hl]
          simp
        · rw [if_neg hexe, hl]
          simp
    rw [hstep]
    simp only [isLibTarget]
    omega

theorem mem_allItems_foldl (ts : List Target) :
    ∀ m y, y ∈ allItems m → y ∈ allItems (ts.foldl collectStep m) := by
  induction ts with
  | nil => intro m y hy; simpa using hy
  | cons t ts ih =>
    intro m y hy
    rw [List.foldl_cons]
    apply ih
    simp only [collectStep]
    by_cases h1 : t.kind.headD "" ∈ libKinds
    · rw [if_pos h1]
      exact mem_allItems_dictPush_of_mem _ _ _ _ hy
    · rw [if_neg h1]
      by_cases h2 : t.kind.headD "" ∈ exeKinds
      · rw [if_pos h2]
        exact mem_allItems_dictPush_of_mem _ _ _ _ hy
      · rw [if_neg h2]
        exact hy

theorem mem_exe_foldl (ts : List Target) :
    ∀ m t, t ∈ ts → t.kind.headD "" ∈ exeKinds →
      (pyCapitalize (t.kind.headD "") ++ ": " ++ t.name,
        Value.str ("--" ++ t.kind.headD "" ++ " " ++ t.name))
        ∈ allItems (ts.foldl collectStep m) := by
  induction ts with
  | nil => intro m t ht; simp at ht
  | cons a ts ih =>
    intro m t ht hexe
    rw [List.foldl_cons]
    rcases List.mem_cons.mp ht with rfl | ht'
    · apply mem_allItems_foldl
      simp only [collectStep]
      rw [if_neg (exe_not_lib _ hexe), if_pos hexe]
      exact mem_allItems_dictPush_self _ _ _
    · exact ih _ t ht' hexe

theorem foldl_collectStep_skip (ts : List Target)
    (h : ∀ t ∈ ts, t.kind.headD "" = "custom-build") :
    ∀ m, ts.foldl collectStep m = m := by
  induction ts with
  | nil => intro m; rfl
  | cons a ts ih =>
    intro m
    rw [List.foldl_cons]
    have ha := h a (by simp)
    have hstep : collectStep m a = m := by
      simp only [collectStep, ha]
      rw [if_neg (by decide), if_neg (by decide)]
    rw [hstep]
    exact ih (fun t ht => h t (by simp [ht])) m

theorem kindAllowed_no_variant (choices : List (String × Value))
    (h : dictGet choices "variant" = none) (k : String) :
    kindAllowed choices k = true := by
  simp [kindAllowed, h]

/-- With no earlier `variant` choice, the target question is the two
synthetic entries followed by every grouped entry, in group order. -/
theorem items_target_no_variant (pkg : Package)
    (choices : List (String × Value))
    (h : dictGet choices "variant" = none) :
    items_target pkg choices =
      [("All Targets", Value.null),
       ("Automatic Detection", Value.str "auto")]
        ++ allItems (collectKinds pkg.targets) := by
  unfold items_target
  have key : ∀ (gs : List (String × List (String × Value)))
      (acc : List (String × Value)),
      gs.foldl (fun acc kv =>
        if kindAllowed choices kv.1 then acc ++ kv.2 else acc) acc
        = acc ++ allItems gs := by
    intro gs
    induction gs with
    | nil => intro acc; simp [allItems]
    | cons g gs ih =>
      intro acc
      have hg : kindAllowed choices g.1 = true :=
        kindAllowed_no_variant choices h g.1
      rw [List.foldl_cons, hg, if_pos rfl, ih]
      simp [allItems]
  exact key _ _

/-- The package of the C8 counterexample: two library-kind targets. -/
def twoLibPkg : Package :=
  Package.mk "p" [Target.mk "a" ["lib"], Target.mk "b" ["proc-macro"]]

/-- C8 counterexample: a package with two library-kind targets gets two
`('Lib', '--lib')` entries, not exactly one — lines 176-177 of
cargo_config.py push one entry per library-kind *target*; only the
sub-kinds inside one target's kind list collapse (line 175 reads
`kind[0]` alone). -/
theorem items_target_single_lib_cex :
    items_target twoLibPkg [] =
      [("All Targets", Value.null),
       ("Automatic Detection", Value.str "auto"),
       ("Lib", Value.str "--lib"), ("Lib", Value.str "--lib")] ∧
    List.count ("Lib", Value.str "--lib") (items_target twoLibPkg []) = 2 := by
  decide

/-- C8 (amended): with no earlier variant choice, the target question
contains one `('Lib', '--lib')` entry per library-kind target (a single
target's multiple library sub-kinds collapse into one entry, since only
the first kind tag is examined); every executable-kind target
contributes its own `('Kind: name', '--kind name')` entry; and a package
of only build-script targets contributes nothing beyond the two
synthetic entries. -/
theorem items_target_grouping (pkg : Package)
    (choices : List (String × Value))
    (hvar : dictGet choices "variant" = none) :
    List.count ("Lib", Value.str "--lib") (items_target pkg choices)
      = List.countP (fun t => isLibTarget t) pkg.targets
    ∧ (∀ t ∈ pkg.targets, t.kind.headD "" ∈ exeKinds →
        (pyCapitalize (t.kind.headD "") ++ ": " ++ t.name,
          Value.str ("--" ++ t.kind.headD "" ++ " " ++ t.name))
          ∈ items_target pkg choices)
    ∧ ((∀ t ∈ pkg.targets, t.kind.headD "" = "custom-build") →
        items_target pkg choices =
          [("All Targets", Value.null),
           ("Automatic Detection", Value.str "auto")]) := by
  have hbase := items_target_no_variant pkg choices hvar
  refine ⟨?_, ?_, ?_⟩
  · rw [hbase, List.count_append]
    have h0 : List.count ("Lib", Value.str "--lib")
        [("All Targets", Value.null),
         ("Automatic Detection", Value.str "auto")] = 0 := by decide
    rw [h0]
    have hc := count_lib_foldl pkg.targets []
    rw [show allItems ([] : List (String × List (String × Value))) = []
        from rfl, List.count_nil, Nat.zero_add] at hc
    simp only [collectKinds]
    omega
  · intro t ht hexe
    rw [hbase]
    apply List.mem_append_right
    simp only [collectKinds]
    exact mem_exe_foldl pkg.targets [] t ht hexe
  · intro hcb
    rw [hbase]
    simp only [collectKinds, foldl_collectStep_skip pkg.targets hcb]
    simp [allItems]

/-- A package with one library target (two sub-kinds), one binary and
one build script. -/
def mixedPkg : Package :=
  Package.mk "p" [Target.mk "a" ["lib", "rlib"], Target.mk "m" ["bin"],
    Target.mk "bs" ["custom-build"]]

/-- A package with only a build script. -/
def cbPkg : Package := Package.mk "p" [Target.mk "bs" ["custom-build"]]

/-- Witness for C8 (amended) at concrete packages. -/
theorem items_target_grouping_witness :
    List.count ("Lib", Value.str "--lib") (items_target mixedPkg []) =
      List.countP (fun t => isLibTarget t) mixedPkg.targets
    ∧ ("Bin: m", Value.str "--bin m") ∈ items_target mixedPkg []
    ∧ items_target cbPkg [] =
        [("All Targets", Value.null),
         ("Automatic Detection", Value.str "auto")] :=
  ⟨(items_target_grouping mixedPkg [] rfl).1,
   (items_target_grouping mixedPkg [] rfl).2.1 (Target.mk "m" ["bin"])
     (by decide) (by decide),
   (items_target_grouping cbPkg [] rfl).2.2 (by decide)⟩
